import Mathlib

/-
Verification of the RelaySMS gateway payload pipeline: a shallow embedding of
src/payload_parser.py, src/segment_cache.py and src/payload_service.py.

Modelling conventions:
* Python `str` values become `List Char` (Python strings are sequences of code
  points, and the parser slices them by index); fixed diagnostic messages are
  Lean `String`s.
* Python `bytes` become `Bytes := List Nat` with every entry < 256 where the
  code constructs them.
* `bytes.fromhex` is modelled strictly (even number of hex digits, no
  whitespace).  Inside this pipeline every call site either slices a
  fixed-width window (2, 4 or 12 characters) and then checks the decoded byte
  count, or receives a slice already validated that way, so whitespace-skipping
  inputs reach the same branch as a failed strict decode.
* `base64.b64decode`/`b64encode` are modelled as canonical RFC 4648 base64
  (length a multiple of four, padding only at the end); the source delegates to
  Python's base64 module.
* `str.encode("utf-8")` / `bytes.decode("utf-8")` are modelled by a strict
  UTF-8 codec (surrogates and out-of-range code points rejected), matching
  Python's strict error mode.
* The database behind `MessageSegments` (peewee) becomes an explicit list of
  rows threaded through every operation; the (session_id, sender_id,
  segment_number) unique check is the application-level `get_or_none` guard of
  `SegmentCache.store_segment`.
* The two gRPC publishers are collaborator oracles supplied as parameters; the
  embedding additionally returns the list of publisher invocations so that
  "invoked exactly once" is a statement about that trace.
* Python exceptions escaping `decode_and_publish` are the `Outcome.fault`
  constructor; recursion is bounded by explicit fuel, with fuel exhaustion
  modelling Python's RecursionError.
-/

namespace RelaySMS

/-- Byte strings: lists of naturals below 256. -/
abbrev Bytes := List Nat

/-- Value of a single hexadecimal digit, accepting both cases as Python's
`bytes.fromhex` does. -/
def hexDigitVal? (c : Char) : Option Nat :=
  if '0' ≤ c ∧ c ≤ '9' then some (c.toNat - '0'.toNat)
  else if 'a' ≤ c ∧ c ≤ 'f' then some (c.toNat - 'a'.toNat + 10)
  else if 'A' ≤ c ∧ c ≤ 'F' then some (c.toNat - 'A'.toNat + 10)
  else none

/-- Strict model of Python's `bytes.fromhex`: pairs of hex digits; an odd
number of digits or a non-digit character fails. -/
def hexDecode? : List Char → Option Bytes
  | [] => some []
  | c1 :: c2 :: rest =>
    match hexDigitVal? c1, hexDigitVal? c2, hexDecode? rest with
    | some h, some l, some bs => some ((16 * h + l) :: bs)
    | _, _, _ => none
  | [_] => none

/-- UTF-8 encoding of a single code point (Python `str.encode("utf-8")`). -/
def charUtf8 (c : Char) : Bytes :=
  let n := c.toNat
  if n < 0x80 then [n]
  else if n < 0x800 then [0xC0 + n / 64, 0x80 + n % 64]
  else if n < 0x10000 then
    [0xE0 + n / 4096, 0x80 + (n / 64) % 64, 0x80 + n % 64]
  else
    [0xF0 + n / 262144, 0x80 + (n / 4096) % 64, 0x80 + (n / 64) % 64,
     0x80 + n % 64]

/-- `str.encode("utf-8")` over a whole string. -/
def utf8Encode (s : List Char) : Bytes := (s.map charUtf8).flatten

/-- Value carried by a UTF-8 continuation byte, if the byte is one. -/
def contVal? (b : Nat) : Option Nat :=
  if 0x80 ≤ b ∧ b < 0xC0 then some (b - 0x80) else none

/-- Strict UTF-8 decoding (Python `bytes.decode("utf-8")`): rejects stray
continuation bytes, overlong forms, surrogates and code points above
0x10FFFF. -/
def utf8Decode? : Bytes → Option (List Char)
  | [] => some []
  | b :: rest =>
    if b < 0x80 then (utf8Decode? rest).map (fun cs => Char.ofNat b :: cs)
    else if b < 0xC2 then none
    else if b < 0xE0 then
      match rest with
      | c1 :: rest2 =>
        match contVal? c1 with
        | some v1 =>
          (utf8Decode? rest2).map (fun cs => Char.ofNat ((b - 0xC0) * 64 + v1) :: cs)
        | none => none
      | [] => none
    else if b < 0xF0 then
      match rest with
      | c1 :: c2 :: rest2 =>
        match contVal? c1, contVal? c2 with
        | some v1, some v2 =>
          let n := (b - 0xE0) * 4096 + v1 * 64 + v2
          if n < 0x800 ∨ (0xD800 ≤ n ∧ n < 0xE000) then none
          else (utf8Decode? rest2).map (fun cs => Char.ofNat n :: cs)
        | _, _ => none
      | _ => none
    else if b < 0xF5 then
      match rest with
      | c1 :: c2 :: c3 :: rest2 =>
        match contVal? c1, contVal? c2, contVal? c3 with
        | some v1, some v2, some v3 =>
          let n := (b - 0xF0) * 262144 + v1 * 4096 + v2 * 64 + v3
          if n < 0x10000 ∨ 0x110000 ≤ n then none
          else (utf8Decode? rest2).map (fun cs => Char.ofNat n :: cs)
        | _, _, _ => none
      | _ => none
    else none

/-- The base64 alphabet, in index order. -/
def b64Alphabet : List Char :=
  ("ABCDEFGHIJKLMNOPQRSTUVWXYZabcdefghijklmnopqrstuvwxyz0123456789+/").toList

/-- Index of a character in the base64 alphabet. -/
def b64Index? (c : Char) : Option Nat :=
  if 'A' ≤ c ∧ c ≤ 'Z' then some (c.toNat - 'A'.toNat)
  else if 'a' ≤ c ∧ c ≤ 'z' then some (c.toNat - 'a'.toNat + 26)
  else if '0' ≤ c ∧ c ≤ '9' then some (c.toNat - '0'.toNat + 52)
  else if c = '+' then some 62
  else if c = '/' then some 63
  else none

/-- Canonical base64 decoding (model of Python `base64.b64decode` on
canonically padded input): quads of alphabet characters, with the final quad
allowed one or two padding characters. -/
def b64Decode? : List Char → Option Bytes
  | [] => some []
  | [c1, c2, '=', '='] =>
    match b64Index? c1, b64Index? c2 with
    | some v1, some v2 => some [v1 * 4 + v2 / 16]
    | _, _ => none
  | [c1, c2, c3, '='] =>
    match b64Index? c1, b64Index? c2, b64Index? c3 with
    | some v1, some v2, some v3 =>
      some [v1 * 4 + v2 / 16, v2 % 16 * 16 + v3 / 4]
    | _, _, _ => none
  | c1 :: c2 :: c3 :: c4 :: rest =>
    match b64Index? c1, b64Index? c2, b64Index? c3, b64Index? c4,
        b64Decode? rest with
    | some v1, some v2, some v3, some v4, some bs =>
      some ((v1 * 4 + v2 / 16) :: (v2 % 16 * 16 + v3 / 4) :: (v3 % 4 * 64 + v4) :: bs)
    | _, _, _, _, _ => none
  | _ => none

/-- Character of the base64 alphabet at an index. -/
def b64Char (n : Nat) : Char := b64Alphabet.getD n 'A'

/-- Canonical base64 encoding (model of Python `base64.b64encode`). -/
def b64Encode : Bytes → List Char
  | [] => []
  | [b1] => [b64Char (b1 / 4), b64Char (b1 % 4 * 16), '=', '=']
  | [b1, b2] =>
    [b64Char (b1 / 4), b64Char (b1 % 4 * 16 + b2 / 16), b64Char (b2 % 16 * 4), '=']
  | b1 :: b2 :: b3 :: rest =>
    b64Char (b1 / 4) :: b64Char (b1 % 4 * 16 + b2 / 16) ::
    b64Char (b2 % 16 * 4 + b3 / 64) :: b64Char (b3 % 64) :: b64Encode rest

/-- Reserved first byte of a bridge payload (`BRIDGE_REQUEST_IDENTIFIER`). -/
def BRIDGE_REQUEST_IDENTIFIER : Nat := 0

/-- Maximum number of segments per session (`MAX_SEGMENTS`). -/
def MAX_SEGMENTS : Nat := 15

/-- Metadata parsed from an image-text header
(`PayloadParser.parse_image_text_metadata`'s result dictionary). -/
structure ItMetadata where
  session_id : Nat
  segment_number : Nat
  total_segments : Nat
  image_length : Nat
  text_length : Nat
deriving DecidableEq

/-- `PayloadParser.is_bridge_payload`: the payload base64-decodes to a
non-empty byte string whose first byte is the bridge marker. -/
def is_bridge_payload (p : List Char) : Bool :=
  match b64Decode? p with
  | some (b :: _) => b = BRIDGE_REQUEST_IDENTIFIER
  | _ => false

/-- `PayloadParser.is_it_payload`: hex marker byte 4, then either 4 hex
characters (short form) or, for payloads of at least 14 characters, 12 hex
characters (long form). -/
def is_it_payload (p : List Char) : Bool :=
  if p.length < 6 then false
  else
    match hexDecode? (p.take 2) with
    | some (b :: _) =>
      if b ≠ 4 then false
      else
        let shortOk : Bool :=
          match hexDecode? ((p.drop 2).take 4) with
          | some bs => bs.length == 2
          | none => false
        if shortOk then true
        else if 14 ≤ p.length then
          match hexDecode? ((p.drop 2).take 12) with
          | some bs => bs.length == 6
          | none => false
        else false
    | _ => false

/-- `PayloadParser.parse_image_text_metadata`: 4 or 12 hex characters; the
second byte packs segment_number (high nibble) and total_segments (low
nibble); the long form appends big-endian 16-bit image and text lengths. -/
def parse_image_text_metadata (m : List Char) : Option ItMetadata :=
  if m.length ≠ 4 ∧ m.length ≠ 12 then none
  else
    match hexDecode? m with
    | none => none
    | some bs =>
      match bs with
      | sid :: segInfo :: restBytes =>
        let segment_number := segInfo / 16 % 16
        let total_segments := segInfo % 16
        if MAX_SEGMENTS ≤ segment_number ∨ MAX_SEGMENTS < total_segments then none
        else if total_segments = 0 then none
        else if total_segments ≤ segment_number then none
        else
          match restBytes with
          | [i1, i2, t1, t2] =>
            some ⟨sid, segment_number, total_segments, i1 * 256 + i2, t1 * 256 + t2⟩
          | [] => some ⟨sid, segment_number, total_segments, 0, 0⟩
          | _ => none
      | _ => none

/-- The long-form attempt of `parse_image_text_payload` (lines 175-186 of
payload_parser.py): succeeds when the payload has at least 14 characters,
characters 2..13 decode as hex, and a non-empty remainder follows. -/
def longFormSlice (p : List Char) : Option (List Char × List Char) :=
  if 14 ≤ p.length then
    match hexDecode? ((p.drop 2).take 12) with
    | some bs =>
      if bs.length = 6 ∧ p.drop 14 ≠ [] then
        some ((p.drop 2).take 12, p.drop 14)
      else none
    | none => none
  else none

/-- The short-form fallback of `parse_image_text_payload` (lines 189-199):
4 hex characters at positions 2..5 with a non-empty remainder. -/
def shortFormSlice (p : List Char) : Option (List Char × List Char) :=
  if 6 ≤ p.length then
    match hexDecode? ((p.drop 2).take 4) with
    | some bs =>
      if bs.length = 2 ∧ p.drop 6 ≠ [] then
        some ((p.drop 2).take 4, p.drop 6)
      else none
    | none => none
  else none

/-- The header/content split chosen by `parse_image_text_payload`: the long
form is tried first; the short form only when it yields nothing. -/
def chosenSlice (p : List Char) : Option (List Char × List Char) :=
  match longFormSlice p with
  | some x => some x
  | none => shortFormSlice p

/-- `PayloadParser.parse_image_text_payload`: after the detection check,
split via `chosenSlice` and parse the chosen metadata window. -/
def parse_image_text_payload (p : List Char) : Option (ItMetadata × List Char) :=
  if ¬ is_it_payload p then none
  else
    match chosenSlice p with
    | none => none
    | some (metadataHex, content) =>
      match parse_image_text_metadata metadataHex with
      | none => none
      | some md => if content = [] then none else some (md, content)

/-- `detect_payload_type` (payload_service.py): image-text detection first,
then bridge detection, defaulting to platform. -/
def detect_payload_type (content : List Char) : String :=
  if is_it_payload content then "image-text"
  else if is_bridge_payload content then "bridge"
  else "platform"

/-- A row of the `message_segments` table (models.MessageSegments), restricted
to the columns the pipeline reads. -/
structure Segment where
  session_id : Nat
  sender_id : String
  segment_number : Nat
  total_segments : Nat
  image_length : Nat
  text_length : Nat
  content : Bytes
deriving DecidableEq

/-- The segment store: the list of rows currently in the table. -/
abbrev CacheState := List Segment

/-- Row matches a (session_id, sender_id, segment_number) composite key. -/
def segKeyMatch (sid : Nat) (sender : String) (n : Nat) (r : Segment) : Bool :=
  r.session_id == sid && r.sender_id == sender && r.segment_number == n

/-- Row belongs to a (session_id, sender_id) session. -/
def sessionMatch (sid : Nat) (sender : String) (r : Segment) : Bool :=
  r.session_id == sid && r.sender_id == sender

/-- Ordering of rows used by `order_by(MessageSegments.segment_number)` and
`sorted(segments, key=lambda s: s.segment_number)`. -/
def segLE (a b : Segment) : Prop := a.segment_number ≤ b.segment_number

instance : DecidableRel segLE :=
  fun a b => inferInstanceAs (Decidable (a.segment_number ≤ b.segment_number))

instance : IsTotal Segment segLE := ⟨fun a b => Nat.le_total _ _⟩

instance : IsTrans Segment segLE := ⟨fun _ _ _ => Nat.le_trans⟩

instance : IsRefl Segment segLE := ⟨fun _ => Nat.le_refl _⟩

/-- Stable sort of rows by segment_number. -/
def sortSegments (l : List Segment) : List Segment := List.insertionSort segLE l

/-- `SegmentCache.store_segment`: a row with the same composite key makes the
call a successful no-op; otherwise the row is inserted.  (The source returns
False only on a storage-layer exception, which this model does not raise.) -/
def store_segment (sid : Nat) (sender : String) (n total img txt : Nat)
    (c : Bytes) (st : CacheState) : Bool × CacheState :=
  if st.any (segKeyMatch sid sender n) then (true, st)
  else (true, st ++ [⟨sid, sender, n, total, img, txt, c⟩])

/-- `SegmentCache.get_segments`: all rows of the session, ordered ascending by
segment_number. -/
def get_segments (sid : Nat) (sender : String) (st : CacheState) : List Segment :=
  sortSegments (st.filter (sessionMatch sid sender))

/-- `SegmentCache.is_session_complete`: (complete, received, total_expected);
total_expected is taken from the first row in segment_number order, and
complete is the equality of the row count with it. -/
def is_session_complete (sid : Nat) (sender : String) (st : CacheState) :
    Bool × Nat × Nat :=
  match get_segments sid sender st with
  | [] => (false, 0, 0)
  | first :: rest =>
    let received := (first :: rest).length
    (received == first.total_segments, received, first.total_segments)

/-- `SegmentCache.delete_session`: remove every row of the session, returning
how many were removed. -/
def delete_session (sid : Nat) (sender : String) (st : CacheState) :
    Nat × CacheState :=
  ((st.filter (sessionMatch sid sender)).length,
   st.filter (fun r => ¬ sessionMatch sid sender r))

/-- `_assemble_complete_payload`: sort the fetched rows, join their content
bytes and decode them as UTF-8; `None` when no rows exist or the decode
raises.  image_length is the first sorted row's. -/
def assemble_complete_payload (sid : Nat) (sender : String) (st : CacheState) :
    Option (List Char × Nat) :=
  let segments := get_segments sid sender st
  if segments = [] then none
  else
    let ss := sortSegments segments
    match ss with
    | [] => none
    | first :: _ =>
      match utf8Decode? ((ss.map (fun s => s.content)).flatten) with
      | none => none
      | some s => some (s, first.image_length)

/-- The submission record consumed by `decode_and_publish`.  String fields
model Python `str` values (falsy when empty), timestamp fields integer
milliseconds (falsy when 0); an absent key is `none`. -/
structure Payload where
  text : Option (List Char) := none
  msisdn : Option String := none
  address : Option String := none
  date : Option Int := none
  date_sent : Option Int := none
  image_length : Option Nat := none
deriving DecidableEq

/-- Python truthiness of an optional string field. -/
def truthyStr (v : Option String) : Bool :=
  match v with
  | some s => s ≠ ""
  | none => false

/-- Python truthiness of the optional text field. -/
def truthyChars (v : Option (List Char)) : Bool :=
  match v with
  | some s => s ≠ []
  | none => false

/-- Python truthiness of an optional integer field. -/
def truthyInt (v : Option Int) : Bool :=
  match v with
  | some n => n ≠ 0
  | none => false

/-- The `payload.get("MSISDN") or payload.get("address")` expression. -/
def senderField (p : Payload) : Option String :=
  if truthyStr p.msisdn then p.msisdn else p.address

/-- `_validate_payload_fields`: required fields checked for truthiness in the
order text, sender, date, date_sent. -/
def validate_payload_fields (p : Payload) : Option String :=
  if ¬ truthyChars p.text then some "Missing required field: text"
  else if ¬ truthyStr (senderField p) then
    some "Missing required field: address or MSISDN"
  else if ¬ truthyInt p.date then some "Missing required field: date"
  else if ¬ truthyInt p.date_sent then some "Missing required field: date_sent"
  else none

/-- `_convert_timestamp`: milliseconds to seconds by floor division
(`int(timestamp) // 1000`), rendered back as a string. -/
def convert_timestamp (t : Option Int) : Option String :=
  t.map (fun d => toString (Int.fdiv d 1000))

/-- One invocation of a publisher collaborator, with the arguments passed. -/
inductive PubCall where
  | platform (content : List Char) (sender : String)
      (date : Option String) (date_sent : Option String)
  | bridge (content : List Char) (sender : String) (image_length : Option Nat)
deriving DecidableEq

/-- A publisher response object (success flag, message, publisher_response). -/
structure PubResponse where
  success : Bool
  message : String
  publisher_response : String
deriving DecidableEq

/-- Result of a publisher call: a transport-level gRPC error (carrying its
details) or a response object. -/
inductive PubResult where
  | grpcError (details : String)
  | response (r : PubResponse)
deriving DecidableEq

/-- The two publisher collaborators (`publish_content` and
`publish_bridge_content`), as oracles from call arguments to results. -/
structure Collaborators where
  publish_content : List Char → String → Option String → Option String → PubResult
  publish_bridge_content : List Char → String → Option Nat → PubResult

/-- Outcome of an invocation: the (message, error) return pair, or an
uncaught Python exception escaping the call. -/
inductive Outcome where
  | result (message : Option String) (error : Option String)
  | fault (exc : String)
deriving DecidableEq

/-- Input to `decode_and_publish`: an already-parsed record, or a string that
fails JSON parsing.  (JSON decoding itself is Python's json module; only its
two observable outcomes are modelled.) -/
inductive PayloadInput where
  | obj (p : Payload)
  | malformed (raw : List Char)
deriving DecidableEq

/-- The body of `_handle_image_text_payload`, parameterized by the recursive
re-entry into `decode_and_publish` (which the source performs at line 216,
before the `delete_session` at line 220).  Unpacking the `None` returned by a
failed `_assemble_complete_payload` (line 201) is a TypeError, modelled as a
fault. -/
def handle_image_text_core
    (recur : PayloadInput → Option String → CacheState → Outcome × CacheState × List PubCall)
    (enc : List Char) (sender : String) (date date_sent : Option Int)
    (origin : Option String) (st : CacheState) :
    Outcome × CacheState × List PubCall :=
  match parse_image_text_payload enc with
  | none => (.result none (some "Failed to parse image-text payload"), st, [])
  | some (md, content) =>
    let stored := store_segment md.session_id sender md.segment_number
      md.total_segments md.image_length md.text_length (utf8Encode content) st
    if ¬ stored.1 then
      (.result none (some "Failed to store message segment"), stored.2, [])
    else
      let st1 := stored.2
      match is_session_complete md.session_id sender st1 with
      | (isComplete, received, total) =>
        if ¬ isComplete then
          (.result (some ("Segment " ++ toString received ++ "/" ++ toString total
              ++ " received and cached for session " ++ toString md.session_id))
              none,
           st1, [])
        else
          match assemble_complete_payload md.session_id sender st1 with
          | none =>
            (.fault "TypeError: cannot unpack non-iterable NoneType object", st1, [])
          | some (assembled, imageLen) =>
            if assembled = [] then
              (.result none (some "Failed to assemble complete payload"),
               (delete_session md.session_id sender st1).2, [])
            else
              let p2 : Payload :=
                { text := some assembled, address := some sender, date := date,
                  date_sent := date_sent, image_length := some imageLen }
              match recur (.obj p2) origin st1 with
              | (.fault e, st2, tr) => (.fault e, st2, tr)
              | (.result m e, st2, tr) =>
                let st3 := (delete_session md.session_id sender st2).2
                match e with
                | some err => (.result none (some err), st3, tr)
                | none => (.result m none, st3, tr)

/-- `decode_and_publish`: validate, classify, then dispatch to the image-text
handler, the bridge publisher (subject to the HTTP restriction flag
`disableBridgeHttp`, i.e. DISABLE_BRIDGE_PAYLOADS_OVER_HTTP) or the platform
publisher.  `fuel` bounds the assembly recursion; exhausting it models
Python's RecursionError. -/
def decode_and_publish : Nat → Bool → Collaborators → PayloadInput →
    Option String → CacheState → Outcome × CacheState × List PubCall
  | 0, _, _, _, _, st =>
    (.fault "RecursionError: maximum recursion depth exceeded", st, [])
  | fuel + 1, disableBridgeHttp, co, input, origin, st =>
    match input with
    | .malformed _ => (.result none (some "Invalid JSON format"), st, [])
    | .obj p =>
      match validate_payload_fields p with
      | some e => (.result none (some e), st, [])
      | none =>
        let enc := p.text.getD []
        let sender := (senderField p).getD ""
        if detect_payload_type enc = "image-text" then
          handle_image_text_core
            (fun i o s => decode_and_publish fuel disableBridgeHttp co i o s)
            enc sender p.date p.date_sent origin st
        else
          match b64Decode? enc with
          | none => (.result none (some "Invalid Base64-encoded payload"), st, [])
          | some decoded =>
            if decoded = [] then
              (.result none (some "Decoded payload is empty"), st, [])
            else
              let isBridge := detect_payload_type enc = "bridge"
              if isBridge ∧ origin = some "http" ∧ disableBridgeHttp then
                (.result none (some "Bridge payloads over HTTP are restricted."),
                 st, [])
              else if isBridge then
                let bridgeContent := b64Encode (decoded.drop 1)
                let call := PubCall.bridge bridgeContent sender p.image_length
                match co.publish_bridge_content bridgeContent sender p.image_length with
                | .grpcError d => (.result none (some d), st, [call])
                | .response r =>
                  if ¬ r.success then (.result none (some r.message), st, [call])
                  else (.result (some r.message) none, st, [call])
              else
                let dateS := convert_timestamp p.date
                let dateSentS := convert_timestamp p.date_sent
                let call := PubCall.platform enc sender dateS dateSentS
                match co.publish_content enc sender dateS dateSentS with
                | .grpcError d => (.result none (some d), st, [call])
                | .response r =>
                  if ¬ r.success then (.result none (some r.message), st, [call])
                  else (.result (some r.publisher_response) none, st, [call])

/-- `_handle_image_text_payload` at a given recursion budget: the core with
the genuine recursive re-entry. -/
def handle_image_text_payload (fuel : Nat) (disableBridgeHttp : Bool)
    (co : Collaborators) (enc : List Char) (sender : String)
    (date date_sent : Option Int) (origin : Option String) (st : CacheState) :
    Outcome × CacheState × List PubCall :=
  handle_image_text_core
    (fun i o s => decode_and_publish fuel disableBridgeHttp co i o s)
    enc sender date date_sent origin st

/-- Composite key of a row. -/
def segKey (r : Segment) : Nat × String × Nat :=
  (r.session_id, r.sender_id, r.segment_number)

/-- Store a list of arriving segments one after the other. -/
def storeAll (l : List Segment) (st : CacheState) : CacheState :=
  l.foldl (fun s r => (store_segment r.session_id r.sender_id r.segment_number
    r.total_segments r.image_length r.text_length r.content s).2) st

/-- A collaborator oracle whose publishers always succeed; used to run the
orchestrator on concrete inputs. -/
def okCollaborators : Collaborators :=
  { publish_content := fun _ _ _ _ => .response ⟨true, "ok", "Published"⟩,
    publish_bridge_content := fun _ _ _ => .response ⟨true, "Bridge published", ""⟩ }

/-- Outcome produced by the bridge branch of `decode_and_publish` from the
bridge publisher's result. -/
def bridgePublishOutcome (res : PubResult) : Outcome :=
  match res with
  | .grpcError d => .result none (some d)
  | .response r =>
    if ¬ r.success then .result none (some r.message)
    else .result (some r.message) none

/-- Modelled from the spec: the completion step as the spec words it
("Complete → assemble session content ... On success, delete the session,
then recurse"), i.e. the session is deleted FIRST and decode_and_publish is
then re-invoked on the assembled content against the already-cleaned store.
Defined only to compare with the source's order, which re-invokes first
(payload_service.py line 216) and deletes afterwards (line 220). -/
def assembleThenDispatchSpecOrder (fuel : Nat) (flag : Bool)
    (co : Collaborators) (sid : Nat) (sender : String)
    (date date_sent : Option Int) (origin : Option String) (st1 : CacheState)
    (assembled : List Char) (imageLen : Nat) :
    Outcome × CacheState × List PubCall :=
  let st2 := (delete_session sid sender st1).2
  decode_and_publish fuel flag co
    (.obj { text := some assembled, address := some sender, date := date,
            date_sent := date_sent, image_length := some imageLen })
    origin st2

/-- Strict segment_number ordering, used to compare sorted row lists. -/
def segLT (a b : Segment) : Prop := a.segment_number < b.segment_number

instance : IsAntisymm Segment segLT :=
  ⟨fun a b h1 h2 => absurd (Nat.lt_trans h1 h2) (Nat.lt_irrefl _)⟩

theorem sortSegments_sorted (l : List Segment) :
    List.Sorted segLE (sortSegments l) :=
  List.sorted_insertionSort segLE l

theorem sortSegments_perm (l : List Segment) : List.Perm (sortSegments l) l :=
  List.perm_insertionSort segLE l

theorem sortSegments_idem (l : List Segment) :
    sortSegments (sortSegments l) = sortSegments l :=
  (sortSegments_sorted l).insertionSort_eq

theorem sortSegments_sorted_lt {l : List Segment}
    (hn : (l.map (fun s => s.segment_number)).Nodup) :
    List.Sorted segLT (sortSegments l) := by
  have hperm : List.Perm ((sortSegments l).map (fun s => s.segment_number))
      (l.map (fun s => s.segment_number)) := (sortSegments_perm l).map _
  have hn2 : ((sortSegments l).map (fun s => s.segment_number)).Nodup :=
    hperm.nodup_iff.mpr hn
  have hne : (sortSegments l).Pairwise
      (fun a b : Segment => a.segment_number ≠ b.segment_number) :=
    (List.pairwise_map).mp hn2
  exact ((sortSegments_sorted l).imp₂ (fun _ _ hle hne2 =>
    Nat.lt_of_le_of_ne hle hne2) hne)

theorem sortSegments_eq_of_perm {l₁ l₂ : List Segment} (hp : List.Perm l₁ l₂)
    (hn : (l₁.map (fun s => s.segment_number)).Nodup) :
    sortSegments l₁ = sortSegments l₂ := by
  have hn₂ : (l₂.map (fun s => s.segment_number)).Nodup :=
    ((hp.map _).nodup_iff).mp hn
  exact List.eq_of_perm_of_sorted
    (((sortSegments_perm l₁).trans hp).trans (sortSegments_perm l₂).symm)
    (sortSegments_sorted_lt hn) (sortSegments_sorted_lt hn₂)

theorem store_segment_fst (sid : Nat) (sender : String) (n total img txt : Nat)
    (c : Bytes) (st : CacheState) :
    (store_segment sid sender n total img txt c st).1 = true := by
  unfold store_segment
  split <;> rfl

/-- C5: is_session_complete returns (false, 0, 0) when no segments are
stored; otherwise it reads the declared total from the lowest-numbered stored
segment and reports complete exactly when the stored count equals that total
and the total is positive. -/
theorem C5_is_session_complete_exact (sid : Nat) (sender : String)
    (st : CacheState) :
    (get_segments sid sender st = [] →
      is_session_complete sid sender st = (false, 0, 0)) ∧
    (∀ first rest, get_segments sid sender st = first :: rest →
      (∀ x ∈ first :: rest, first.segment_number ≤ x.segment_number) ∧
      is_session_complete sid sender st =
        ((rest.length + 1 == first.total_segments : Bool), rest.length + 1,
          first.total_segments) ∧
      ((is_session_complete sid sender st).1 = true ↔
        (rest.length + 1 = first.total_segments ∧ 0 < first.total_segments))) := by
  constructor
  · intro h
    unfold is_session_complete
    rw [h]
  · intro first rest h
    have hsorted : List.Sorted segLE (first :: rest) := by
      have hs := sortSegments_sorted (st.filter (sessionMatch sid sender))
      rw [show sortSegments (st.filter (sessionMatch sid sender)) =
        get_segments sid sender st from rfl, h] at hs
      exact hs
    have hval : is_session_complete sid sender st =
        ((rest.length + 1 == first.total_segments : Bool), rest.length + 1,
          first.total_segments) := by
      unfold is_session_complete
      rw [h]
      simp
    refine ⟨?_, hval, ?_⟩
    · intro x hx
      rcases List.mem_cons.mp hx with hx | hx
      · exact hx ▸ Nat.le_refl _
      · exact List.rel_of_sorted_cons hsorted x hx
    · rw [hval]
      constructor
      · intro hb
        have he : rest.length + 1 = first.total_segments := by
          simpa using hb
        exact ⟨he, he ▸ Nat.succ_pos _⟩
      · intro ⟨he, _⟩
        simpa using he

/-- Witness for C5 at a concrete store: one stored segment declaring two
total segments is reported incomplete at count 1, with the declared total
taken from the lowest-numbered (only) row. -/
theorem C5_is_session_complete_exact_witness :
    is_session_complete 7 "+1" [⟨7, "+1", 0, 2, 0, 0, [90]⟩] =
      (false, 1, 2) ∧
    ((is_session_complete 7 "+1" [⟨7, "+1", 0, 2, 0, 0, [90]⟩]).1 = true ↔
      (1 = 2 ∧ 0 < 2)) := by
  have h := (C5_is_session_complete_exact 7 "+1"
    [⟨7, "+1", 0, 2, 0, 0, [90]⟩]).2 ⟨7, "+1", 0, 2, 0, 0, [90]⟩ [] (by decide)
  exact ⟨by simpa using h.2.1, h.2.2⟩

/-- C6: a second store with the same (session_id, sender_id, segment_number)
key — whatever its content, total or lengths — returns success and leaves the
state of the first store untouched: storing twice equals storing once. -/
theorem C6_store_segment_idempotent (sid : Nat) (sender : String)
    (n t1 i1 x1 t2 i2 x2 : Nat) (c1 c2 : Bytes) (st : CacheState) :
    store_segment sid sender n t2 i2 x2 c2
        (store_segment sid sender n t1 i1 x1 c1 st).2
      = (true, (store_segment sid sender n t1 i1 x1 c1 st).2) := by
  unfold store_segment
  by_cases h : st.any (segKeyMatch sid sender n)
  · simp [h]
  · simp [h, List.any_append, segKeyMatch]

theorem segKeyMatch_iff_key (sid : Nat) (sender : String) (n : Nat)
    (x : Segment) :
    segKeyMatch sid sender n x = true ↔ segKey x = (sid, sender, n) := by
  simp [segKeyMatch, segKey, Prod.ext_iff, and_assoc]

theorem storeAll_fresh :
    ∀ (l : List Segment) (st : CacheState),
      (l.map segKey).Nodup →
      (∀ r ∈ l, ∀ x ∈ st, segKey x ≠ segKey r) →
      storeAll l st = st ++ l := by
  intro l
  induction l with
  | nil => intro st _ _; simp [storeAll]
  | cons r l ih =>
    intro st hn hfresh
    have hnomatch : st.any (segKeyMatch r.session_id r.sender_id r.segment_number)
        = false := by
      rw [List.any_eq_false]
      intro x hx
      intro hmatch
      exact hfresh r (List.mem_cons_self r l) x hx
        ((segKeyMatch_iff_key _ _ _ _).mp hmatch)
    have hstore : (store_segment r.session_id r.sender_id r.segment_number
        r.total_segments r.image_length r.text_length r.content st).2
        = st ++ [r] := by
      unfold store_segment
      rw [hnomatch]
      simp
    have hstep : storeAll (r :: l) st = storeAll l (st ++ [r]) := by
      simp only [storeAll, List.foldl_cons]
      rw [hstore]
    rw [hstep, ih (st ++ [r]) (by simpa using (List.nodup_cons.mp hn).2) ?_]
    · simp
    · intro r2 hr2 x hx
      rcases List.mem_append.mp hx with hx | hx
      · exact hfresh r2 (List.mem_cons_of_mem r hr2) x hx
      · have hxr : x = r := by simpa using hx
        subst hxr
        intro hkey
        exact (List.nodup_cons.mp hn).1 (hkey ▸ List.mem_map_of_mem segKey hr2)

/-- C7: storing the segments of a session in any arrival order yields the
same assembled result, equal to the UTF-8 decoding of the concatenation of
the segments' content in ascending segment_number order, with image_length
taken from the lowest-numbered segment. -/
theorem C7_assembly_order_independent (sid : Nat) (sender : String)
    (l₁ l₂ : List Segment) (st : CacheState)
    (hp : List.Perm l₁ l₂)
    (hn : (l₁.map (fun s => s.segment_number)).Nodup)
    (hsess : ∀ r ∈ l₁, r.session_id = sid ∧ r.sender_id = sender)
    (hst : ∀ x ∈ st, sessionMatch sid sender x = false) :
    assemble_complete_payload sid sender (storeAll l₁ st)
      = assemble_complete_payload sid sender (storeAll l₂ st) ∧
    (∀ first rest, sortSegments l₁ = first :: rest →
      (∀ x ∈ l₁, first.segment_number ≤ x.segment_number) ∧
      assemble_complete_payload sid sender (storeAll l₁ st)
        = (utf8Decode? (((first :: rest).map (fun s => s.content)).flatten)).map
            (fun str => (str, first.image_length))) := by
  have keyNodup : ∀ {l : List Segment},
      (l.map (fun s => s.segment_number)).Nodup →
      (∀ r ∈ l, r.session_id = sid ∧ r.sender_id = sender) →
      (l.map segKey).Nodup := by
    intro l hnum _
    rw [List.Nodup, List.pairwise_map] at hnum ⊢
    exact hnum.imp (fun hne hkey => hne (by
      simpa [segKey, Prod.ext_iff] using congrArg (fun k => k.2.2) hkey))
  have getSeg : ∀ (l : List Segment),
      (l.map (fun s => s.segment_number)).Nodup →
      (∀ r ∈ l, r.session_id = sid ∧ r.sender_id = sender) →
      get_segments sid sender (storeAll l st) = sortSegments l := by
    intro l hnum hs
    have hall : storeAll l st = st ++ l := by
      apply storeAll_fresh l st (keyNodup hnum hs)
      intro r hr x hx hkey
      have hx2 : sessionMatch sid sender x = true := by
        have h1 := (hs r hr).1
        have h2 := (hs r hr).2
        have : x.session_id = sid ∧ x.sender_id = sender := by
          constructor
          · rw [show x.session_id = r.session_id from congrArg (fun k => k.1) hkey]
            exact h1
          · rw [show x.sender_id = r.sender_id from
              congrArg (fun k => k.2.1) hkey]
            exact h2
        simp [sessionMatch, this.1, this.2]
      rw [hst x hx] at hx2
      exact Bool.false_ne_true hx2
    unfold get_segments
    rw [hall, List.filter_append]
    have h1 : st.filter (sessionMatch sid sender) = [] :=
      List.filter_eq_nil_iff.mpr (fun x hx => by simp [hst x hx])
    have h2 : l.filter (sessionMatch sid sender) = l :=
      List.filter_eq_self.mpr (fun r hr => by
        simp [sessionMatch, (hs r hr).1, (hs r hr).2])
    rw [h1, h2, List.nil_append]
  have hsess₂ : ∀ r ∈ l₂, r.session_id = sid ∧ r.sender_id = sender :=
    fun r hr => hsess r (hp.mem_iff.mpr hr)
  have hn₂ : (l₂.map (fun s => s.segment_number)).Nodup :=
    ((hp.map _).nodup_iff).mp hn
  have g1 := getSeg l₁ hn hsess
  have g2 := getSeg l₂ hn₂ hsess₂
  have hsortEq : sortSegments l₁ = sortSegments l₂ := sortSegments_eq_of_perm hp hn
  constructor
  · unfold assemble_complete_payload
    rw [g1, g2, hsortEq]
  · intro first rest hhead
    constructor
    · intro x hx
      have hx2 : x ∈ first :: rest :=
        hhead ▸ (sortSegments_perm l₁).mem_iff.mpr hx
      rcases List.mem_cons.mp hx2 with hx2 | hx2
      · exact hx2 ▸ Nat.le_refl _
      · have hsorted : List.Sorted segLE (first :: rest) :=
          hhead ▸ sortSegments_sorted l₁
        exact List.rel_of_sorted_cons hsorted x hx2
    · unfold assemble_complete_payload
      rw [g1, hhead]
      have hidem : sortSegments (first :: rest) = first :: rest := by
        rw [← hhead]
        exact sortSegments_idem l₁
      rw [if_neg (by simp), hidem]
      simp only [List.map_cons, List.flatten_cons]
      cases hdec : utf8Decode? (first.content ++ ((rest.map (fun s => s.content))).flatten) <;>
        simp [hdec]

/-- Witness for C7: a three-segment session stored in the orders (0,1,2) and
(2,0,1) assembles identically, to the ascending concatenation. -/
theorem C7_assembly_order_independent_witness :
    assemble_complete_payload 3 "+1"
        (storeAll [⟨3, "+1", 0, 3, 9, 0, [65]⟩, ⟨3, "+1", 1, 3, 5, 0, [66]⟩,
          ⟨3, "+1", 2, 3, 7, 0, [67]⟩] []) =
      assemble_complete_payload 3 "+1"
        (storeAll [⟨3, "+1", 2, 3, 7, 0, [67]⟩, ⟨3, "+1", 0, 3, 9, 0, [65]⟩,
          ⟨3, "+1", 1, 3, 5, 0, [66]⟩] []) ∧
    assemble_complete_payload 3 "+1"
        (storeAll [⟨3, "+1", 0, 3, 9, 0, [65]⟩, ⟨3, "+1", 1, 3, 5, 0, [66]⟩,
          ⟨3, "+1", 2, 3, 7, 0, [67]⟩] []) = some ("ABC".toList, 9) := by
  have h := C7_assembly_order_independent 3 "+1"
    [⟨3, "+1", 0, 3, 9, 0, [65]⟩, ⟨3, "+1", 1, 3, 5, 0, [66]⟩,
      ⟨3, "+1", 2, 3, 7, 0, [67]⟩]
    [⟨3, "+1", 2, 3, 7, 0, [67]⟩, ⟨3, "+1", 0, 3, 9, 0, [65]⟩,
      ⟨3, "+1", 1, 3, 5, 0, [66]⟩]
    [] (by decide) (by decide) (by decide) (by intro x hx; cases hx)
  refine ⟨h.1, ?_⟩
  have h2 := (h.2 ⟨3, "+1", 0, 3, 9, 0, [65]⟩
    [⟨3, "+1", 1, 3, 5, 0, [66]⟩, ⟨3, "+1", 2, 3, 7, 0, [67]⟩] (by decide)).2
  rw [h2]
  decide

/-- C8: classification is total — always exactly one of the three tags — and
image-text detection takes priority over bridge detection, with platform as
the default when both fail. -/
theorem C8_detect_total_with_priority (p : List Char) :
    (detect_payload_type p = "image-text" ∨ detect_payload_type p = "bridge" ∨
      detect_payload_type p = "platform") ∧
    (is_it_payload p = true → detect_payload_type p = "image-text") ∧
    (is_it_payload p = false → is_bridge_payload p = true →
      detect_payload_type p = "bridge") ∧
    (is_it_payload p = false → is_bridge_payload p = false →
      detect_payload_type p = "platform") := by
  unfold detect_payload_type
  by_cases h1 : is_it_payload p <;> by_cases h2 : is_bridge_payload p <;>
    simp [h1, h2]

/-- Witness for C8 at concrete payloads of each class. -/
theorem C8_detect_total_with_priority_witness :
    detect_payload_type "0405020405".toList = "image-text" ∧
    detect_payload_type "AGhp".toList = "bridge" ∧
    detect_payload_type "eA==".toList = "platform" := by
  exact ⟨(C8_detect_total_with_priority "0405020405".toList).2.1 (by decide),
    (C8_detect_total_with_priority "AGhp".toList).2.2.1 (by decide) (by decide),
    (C8_detect_total_with_priority "eA==".toList).2.2.2 (by decide) (by decide)⟩

/-- C10: required-field validation is by truthiness (absent, empty or zero
values all fail), in the order text, sender, date, date_sent, and a failing
submission is rejected with the named field before any state change or
publisher call. -/
theorem C10_validation_truthiness (fuel : Nat) (flag : Bool)
    (co : Collaborators) (origin : Option String) (st : CacheState)
    (p : Payload) :
    (¬ truthyChars p.text = true →
      decode_and_publish (fuel + 1) flag co (.obj p) origin st
        = (.result none (some "Missing required field: text"), st, [])) ∧
    (truthyChars p.text = true → ¬ truthyStr (senderField p) = true →
      decode_and_publish (fuel + 1) flag co (.obj p) origin st
        = (.result none (some "Missing required field: address or MSISDN"), st, [])) ∧
    (truthyChars p.text = true → truthyStr (senderField p) = true →
      ¬ truthyInt p.date = true →
      decode_and_publish (fuel + 1) flag co (.obj p) origin st
        = (.result none (some "Missing required field: date"), st, [])) ∧
    (truthyChars p.text = true → truthyStr (senderField p) = true →
      truthyInt p.date = true → ¬ truthyInt p.date_sent = true →
      decode_and_publish (fuel + 1) flag co (.obj p) origin st
        = (.result none (some "Missing required field: date_sent"), st, [])) := by
  refine ⟨?_, ?_, ?_, ?_⟩
  · intro h1
    have hv : validate_payload_fields p = some "Missing required field: text" := by
      unfold validate_payload_fields
      rw [if_pos h1]
    simp [decode_and_publish, hv]
  · intro h1 h2
    have hv : validate_payload_fields p
        = some "Missing required field: address or MSISDN" := by
      unfold validate_payload_fields
      rw [if_neg (by simp [h1]), if_pos h2]
    simp [decode_and_publish, hv]
  · intro h1 h2 h3
    have hv : validate_payload_fields p = some "Missing required field: date" := by
      unfold validate_payload_fields
      rw [if_neg (by simp [h1]), if_neg (by simp [h2]), if_pos h3]
    simp [decode_and_publish, hv]
  · intro h1 h2 h3 h4
    have hv : validate_payload_fields p
        = some "Missing required field: date_sent" := by
      unfold validate_payload_fields
      rw [if_neg (by simp [h1]), if_neg (by simp [h2]), if_neg (by simp [h3]),
        if_pos h4]
    simp [decode_and_publish, hv]

/-- Witness for C10: one concrete submission per missing or falsy field,
including present-but-falsy values (empty text, empty sender string, zero
timestamp). -/
theorem C10_validation_truthiness_witness :
    decode_and_publish 1 false okCollaborators
        (.obj { text := some [], address := some "+1", date := some 1,
                date_sent := some 1 }) (some "http") []
      = (.result none (some "Missing required field: text"), [], []) ∧
    decode_and_publish 1 false okCollaborators
        (.obj { text := some "eA==".toList, msisdn := some "", date := some 1,
                date_sent := some 1 }) (some "http") []
      = (.result none (some "Missing required field: address or MSISDN"), [], []) ∧
    decode_and_publish 1 false okCollaborators
        (.obj { text := some "eA==".toList, address := some "+1",
                date := some 0, date_sent := some 1 }) (some "http") []
      = (.result none (some "Missing required field: date"), [], []) ∧
    decode_and_publish 1 false okCollaborators
        (.obj { text := some "eA==".toList, address := some "+1",
                date := some 1 }) (some "http") []
      = (.result none (some "Missing required field: date_sent"), [], []) := by
  refine ⟨?_, ?_, ?_, ?_⟩
  · exact (C10_validation_truthiness 0 false okCollaborators (some "http") []
      { text := some [], address := some "+1", date := some 1,
        date_sent := some 1 }).1 (by decide)
  · exact (C10_validation_truthiness 0 false okCollaborators (some "http") []
      { text := some "eA==".toList, msisdn := some "", date := some 1,
        date_sent := some 1 }).2.1 (by decide) (by decide)
  · exact (C10_validation_truthiness 0 false okCollaborators (some "http") []
      { text := some "eA==".toList, address := some "+1", date := some 0,
        date_sent := some 1 }).2.2.1 (by decide) (by decide) (by decide)
  · exact (C10_validation_truthiness 0 false okCollaborators (some "http") []
      { text := some "eA==".toList, address := some "+1",
        date := some 1 }).2.2.2 (by decide) (by decide) (by decide) (by decide)

/-- C1: at a stored state whose session 7 already holds a segment with
non-UTF-8 content bytes, the arriving segment completes the session,
`_assemble_complete_payload` returns None (the UTF-8 decode of the joined
contents raises and is caught), and `decode_and_publish` then faults — the
tuple unpacking at payload_service.py line 201 raises TypeError before the
error branch at line 203 can run — leaving the segments stored, instead of
returning an error value. -/
theorem C1_assembly_failure_faults :
    decode_and_publish 5 false okCollaborators
        (.obj { text := some "040702Z".toList, address := some "+15551234567",
                date := some 1633024800000, date_sent := some 1633024800000 })
        (some "http")
        [⟨7, "+15551234567", 1, 2, 0, 0, [255]⟩]
      = (.fault "TypeError: cannot unpack non-iterable NoneType object",
         [⟨7, "+15551234567", 1, 2, 0, 0, [255]⟩,
          ⟨7, "+15551234567", 0, 2, 0, 0, [90]⟩], []) := by
  decide

/-- C2 counterexample: (i) on assembly failure the orchestrator neither
deletes the session nor returns an error — it faults with the session's
segments still stored; (ii) on assembly success the source re-invokes
decode_and_publish BEFORE deleting: on a session whose assembled content is
itself a segmented payload for the same session, the code reports
"Segment 3/2" (the recursion saw the still-stored rows), whereas the
spec-ordered delete-first variant reports "Segment 1/3" and leaves a row
stored — the two disagree, so the claimed order is not the code's. -/
theorem C2_counterexample :
    (decode_and_publish 5 false okCollaborators
        (.obj { text := some "040902W".toList, address := some "+2",
                date := some 1000, date_sent := some 2000 })
        (some "http") [⟨9, "+2", 1, 2, 0, 0, [254]⟩]
      = (.fault "TypeError: cannot unpack non-iterable NoneType object",
         [⟨9, "+2", 1, 2, 0, 0, [254]⟩, ⟨9, "+2", 0, 2, 0, 0, [87]⟩], [])) ∧
    (decode_and_publish 5 false okCollaborators
        (.obj { text := some "0405020405".toList, address := some "+237",
                date := some 1000, date_sent := some 2000 })
        (some "http") [⟨5, "+237", 1, 4, 0, 0, [50, 51, 81]⟩]
      = (.result (some "Segment 3/2 received and cached for session 5") none,
         [], [])) ∧
    (assembleThenDispatchSpecOrder 4 false okCollaborators 5 "+237"
        (some 1000) (some 2000) (some "http")
        [⟨5, "+237", 1, 4, 0, 0, [50, 51, 81]⟩,
         ⟨5, "+237", 0, 2, 0, 0, [48, 52, 48, 53]⟩]
        "040523Q".toList 0
      = (.result (some "Segment 1/3 received and cached for session 5") none,
         [⟨5, "+237", 2, 3, 0, 0, [81]⟩], [])) := by
  refine ⟨by decide, by decide, by decide⟩

/-- C3 counterexample: a valid short-form payload (marker "04", metadata
"2a12", non-empty content "cafebabe12ff") whose content begins with 12 hex
characters is parsed as LONG form — the content's first characters are
consumed as header bytes — not as the short form the claim predicts. -/
theorem C3_counterexample :
    parse_image_text_payload "042a12cafebabe12ff".toList
      = some (⟨42, 1, 2, 51966, 47806⟩, "12ff".toList) ∧
    parse_image_text_payload "042a12cafebabe12ff".toList
      ≠ some (⟨42, 1, 2, 0, 0⟩, "cafebabe12ff".toList) := by
  refine ⟨by decide, by decide⟩

/-- C4 counterexample: a long-form header with segment_number = 1 ≠ 0 parses
successfully (the source never checks segment_number == 0 for the long
layout), and the orchestrator stores the segment and answers with the
segment-received success message instead of an error. -/
theorem C4_counterexample :
    parse_image_text_metadata "0512abcd1234".toList
      = some ⟨5, 1, 2, 43981, 4660⟩ ∧
    parse_image_text_metadata "0512abcd1234".toList ≠ none ∧
    decode_and_publish 3 false okCollaborators
        (.obj { text := some "040512abcd1234QQ".toList, address := some "+30",
                date := some 1000, date_sent := some 2000 })
        (some "http") []
      = (.result (some "Segment 1/2 received and cached for session 5") none,
         [⟨5, "+30", 1, 2, 43981, 4660, [81, 81]⟩], []) := by
  refine ⟨by decide, by decide, by decide⟩

/-- A successful strict hex decode consumes exactly two characters per
byte. -/
theorem hexDecode_length : ∀ (l : List Char) (bs : Bytes),
    hexDecode? l = some bs → l.length = 2 * bs.length
  | [], bs, h => by
    simp only [hexDecode?, Option.some.injEq] at h
    subst h
    rfl
  | [c], bs, h => by
    simp [hexDecode?] at h
  | c1 :: c2 :: rest, bs, h => by
    unfold hexDecode? at h
    cases h1 : hexDigitVal? c1 <;> cases h2 : hexDigitVal? c2 <;>
        cases h3 : hexDecode? rest <;> rw [h1, h2, h3] at h <;> simp at h
    subst h
    have ih := hexDecode_length rest _ h3
    simp [List.length_cons, ih]
    omega

/-- C3 amended: the parse prefers the long form based on the payload's
shape — whenever the payload has at least 15 characters and characters 2..13
decode as hex, it is parsed as long form (consuming the first characters of
what a short-form reading would call content); the short-form metadata and
the content after position 6 are returned only when no long-form
interpretation applies. -/
theorem C3_short_form_only_without_long_reading (p : List Char)
    (hit : is_it_payload p = true) :
    ((p.length < 15 ∨ hexDecode? ((p.drop 2).take 12) = none) →
      parse_image_text_payload p
        = match parse_image_text_metadata ((p.drop 2).take 4) with
          | none => none
          | some md => if p.drop 6 = [] then none else some (md, p.drop 6)) ∧
    (∀ bs, 15 ≤ p.length → hexDecode? ((p.drop 2).take 12) = some bs →
      parse_image_text_payload p
        = match parse_image_text_metadata ((p.drop 2).take 12) with
          | none => none
          | some md => some (md, p.drop 14)) := by
  have hlen6 : 6 ≤ p.length := by
    by_contra hc
    unfold is_it_payload at hit
    rw [if_pos (by omega)] at hit
    exact Bool.false_ne_true hit
  constructor
  · intro hcase
    have hlong : longFormSlice p = none := by
      unfold longFormSlice
      rcases hcase with hlen | hhex
      · by_cases h14 : 14 ≤ p.length
        · rw [if_pos h14]
          have hdrop : p.drop 14 = [] := List.drop_eq_nil_iff.mpr (by omega)
          cases hx : hexDecode? ((p.drop 2).take 12) <;> simp [hdrop]
        · rw [if_neg h14]
      · by_cases h14 : 14 ≤ p.length
        · rw [if_pos h14, hhex]
        · rw [if_neg h14]
    cases hx : hexDecode? ((p.drop 2).take 4) with
    | none =>
      have hchosen : chosenSlice p = none := by
        unfold chosenSlice
        rw [hlong]
        unfold shortFormSlice
        rw [if_pos hlen6, hx]
      have hm : parse_image_text_metadata ((p.drop 2).take 4) = none := by
        unfold parse_image_text_metadata
        have htk : ((p.drop 2).take 4).length = 4 := by
          simp [List.length_take, List.length_drop]
          omega
        rw [if_neg (by simp [htk]), hx]
      unfold parse_image_text_payload
      rw [if_neg (by simp [hit]), hchosen, hm]
    | some bs =>
      have hbs : bs.length = 2 := by
        have htk : ((p.drop 2).take 4).length = 4 := by
          simp [List.length_take, List.length_drop]
          omega
        have hl := hexDecode_length _ _ hx
        omega
      by_cases hd6 : p.drop 6 = []
      · have hchosen : chosenSlice p = none := by
          unfold chosenSlice
          rw [hlong]
          unfold shortFormSlice
          rw [if_pos hlen6, hx]
          show (if bs.length = 2 ∧ p.drop 6 ≠ [] then
            some ((p.drop 2).take 4, p.drop 6) else none) = _
          rw [if_neg (by simp [hd6])]
        unfold parse_image_text_payload
        rw [if_neg (by simp [hit]), hchosen]
        cases hm : parse_image_text_metadata ((p.drop 2).take 4) <;> simp [hd6]
      · have hchosen : chosenSlice p = some ((p.drop 2).take 4, p.drop 6) := by
          unfold chosenSlice
          rw [hlong]
          unfold shortFormSlice
          rw [if_pos hlen6, hx]
          show (if bs.length = 2 ∧ p.drop 6 ≠ [] then
            some ((p.drop 2).take 4, p.drop 6) else none) = _
          rw [if_pos ⟨hbs, hd6⟩]
        unfold parse_image_text_payload
        rw [if_neg (by simp [hit]), hchosen]
  · intro bs h15 hhex
    have hbs : bs.length = 6 := by
      have htk : ((p.drop 2).take 12).length = 12 := by
        simp [List.length_take, List.length_drop]
        omega
      have hl := hexDecode_length _ _ hhex
      omega
    have hd14 : p.drop 14 ≠ [] := by
      intro hEq
      rw [List.drop_eq_nil_iff] at hEq
      omega
    have hchosen : chosenSlice p = some ((p.drop 2).take 12, p.drop 14) := by
      unfold chosenSlice longFormSlice
      rw [if_pos (by omega), hhex]
      show (match (if bs.length = 6 ∧ p.drop 14 ≠ [] then
          some ((p.drop 2).take 12, p.drop 14) else none) with
        | some x => some x
        | none => shortFormSlice p) = _
      rw [if_pos ⟨hbs, hd14⟩]
    unfold parse_image_text_payload
    rw [if_neg (by simp [hit]), hchosen]
    cases hm : parse_image_text_metadata ((p.drop 2).take 12) <;> simp [hm, hd14]

/-- C4 amended: a long-form header passes exactly the same nibble validation
as the short form (total_segments in 1..15 and segment_number below it);
segment_number = 0 is NOT required, so long-form headers with
segment_number ≠ 0 parse successfully and flow on to storage rather than
being rejected. -/
theorem C4_long_form_segment_number_unrestricted (m : List Char)
    (s info i1 i2 t1 t2 : Nat)
    (hlen : m.length = 12)
    (hhex : hexDecode? m = some [s, info, i1, i2, t1, t2])
    (hvalid : info / 16 % 16 < info % 16) :
    parse_image_text_metadata m
      = some ⟨s, info / 16 % 16, info % 16, i1 * 256 + i2, t1 * 256 + t2⟩ := by
  unfold parse_image_text_metadata
  rw [if_neg (by simp [hlen]), hhex]
  have h1 : ¬ (MAX_SEGMENTS ≤ info / 16 % 16 ∨ MAX_SEGMENTS < info % 16) := by
    unfold MAX_SEGMENTS
    omega
  have h2 : ¬ (info % 16 = 0) := by omega
  have h3 : ¬ (info % 16 ≤ info / 16 % 16) := by omega
  simp [h1, h2, h3]

/-- Witness for the amended C4 at the concrete long-form header of
session 5, segment 1 of 2. -/
theorem C4_long_form_segment_number_unrestricted_witness :
    parse_image_text_metadata "0512abcd1234".toList
      = some ⟨5, 1, 2, 43981, 4660⟩ := by
  have h := C4_long_form_segment_number_unrestricted "0512abcd1234".toList
    5 18 171 205 18 52 (by decide) (by decide) (by decide)
  simpa using h

/-- Witness for the amended C3: a genuinely short payload parses as short
form, and the payload whose content begins with 12 hex characters parses as
long form. -/
theorem C3_short_form_only_without_long_reading_witness :
    parse_image_text_payload "040702Z".toList
      = some (⟨7, 0, 2, 0, 0⟩, "Z".toList) ∧
    parse_image_text_payload "042a12cafebabe12ff".toList
      = some (⟨42, 1, 2, 51966, 47806⟩, "12ff".toList) := by
  constructor
  · rw [(C3_short_form_only_without_long_reading "040702Z".toList
      (by decide)).1 (by decide)]
    decide
  · rw [(C3_short_form_only_without_long_reading "042a12cafebabe12ff".toList
      (by decide)).2 [42, 18, 202, 254, 186, 190] (by decide) (by decide)]
    decide

/-- Deleting a session leaves no row of that session behind. -/
theorem delete_session_clears (sid : Nat) (sender : String) (l : CacheState) :
    (delete_session sid sender l).2.filter (sessionMatch sid sender) = [] := by
  unfold delete_session
  apply List.filter_eq_nil_iff.mpr
  intro x hx
  have hm := List.mem_filter.mp hx
  simpa using hm.2

/-- C2 amended: when the stored segment completes its session the
orchestrator assembles the session content; when assembly returns None the
invocation faults (the None is unpacked before the error branch) with the
segments still stored; on assembly success with non-empty content it
re-invokes decode_and_publish with the assembled content as the new text
field and the same sender, timestamps and origin FIRST, and deletes the
session only AFTERWARDS, returning the recursive outcome's error or message —
so whenever the recursion returns a non-fault outcome, no segments of the
session remain stored. -/
theorem C2_complete_recurse_then_delete (fuel : Nat) (flag : Bool)
    (co : Collaborators) (enc : List Char) (sender : String)
    (date date_sent : Option Int) (origin : Option String) (st : CacheState)
    (md : ItMetadata) (content : List Char) (rcv tot : Nat) (st1 : CacheState)
    (hparse : parse_image_text_payload enc = some (md, content))
    (hst1 : st1 = (store_segment md.session_id sender md.segment_number
        md.total_segments md.image_length md.text_length
        (utf8Encode content) st).2)
    (hcomplete : is_session_complete md.session_id sender st1 = (true, rcv, tot)) :
    (assemble_complete_payload md.session_id sender st1 = none →
      handle_image_text_payload fuel flag co enc sender date date_sent origin st
        = (.fault "TypeError: cannot unpack non-iterable NoneType object",
           st1, [])) ∧
    (∀ assembled imageLen m e st2 tr,
      assemble_complete_payload md.session_id sender st1
        = some (assembled, imageLen) →
      assembled ≠ [] →
      decode_and_publish fuel flag co
          (.obj { text := some assembled, address := some sender, date := date,
                  date_sent := date_sent, image_length := some imageLen })
          origin st1
        = (.result m e, st2, tr) →
      handle_image_text_payload fuel flag co enc sender date date_sent origin st
        = ((match e with
            | some err => Outcome.result none (some err)
            | none => Outcome.result m none),
           (delete_session md.session_id sender st2).2, tr) ∧
      (delete_session md.session_id sender st2).2.filter
          (sessionMatch md.session_id sender) = []) := by
  subst hst1
  constructor
  · intro hassemble
    simp only [handle_image_text_payload, handle_image_text_core, hparse,
      store_segment_fst, not_true, if_false, hcomplete, hassemble,
      Bool.not_true, Bool.false_eq_true, ite_false]
  · intro assembled imageLen m e st2 tr hassemble hne hrec
    refine ⟨?_, delete_session_clears _ _ _⟩
    simp only [handle_image_text_payload, handle_image_text_core, hparse,
      store_segment_fst, not_true, if_false, hcomplete, hassemble,
      Bool.not_true, Bool.false_eq_true, ite_false, if_neg hne, hrec]
    cases e <;> rfl


/-- Witness for the amended C2: a two-segment session completes, the
recursion publishes via the platform publisher exactly once, and the
terminal state holds no segments. -/
theorem C2_complete_recurse_then_delete_witness :
    handle_image_text_payload 4 false okCollaborators "040712QUJD".toList "+1"
        (some 1000) (some 2000) (some "http")
        [⟨7, "+1", 0, 2, 0, 0, [81, 85, 74, 68]⟩]
      = (.result (some "Published") none, [],
         [.platform "QUJDQUJD".toList "+1" (some "1") (some "2")]) ∧
    (delete_session 7 "+1"
        [⟨7, "+1", 0, 2, 0, 0, [81, 85, 74, 68]⟩,
         ⟨7, "+1", 1, 2, 0, 0, [81, 85, 74, 68]⟩]).2.filter
      (sessionMatch 7 "+1") = [] := by
  have h := (C2_complete_recurse_then_delete 4 false okCollaborators
    "040712QUJD".toList "+1" (some 1000) (some 2000) (some "http")
    [⟨7, "+1", 0, 2, 0, 0, [81, 85, 74, 68]⟩]
    ⟨7, 1, 2, 0, 0⟩ "QUJD".toList 2 2
    [⟨7, "+1", 0, 2, 0, 0, [81, 85, 74, 68]⟩,
     ⟨7, "+1", 1, 2, 0, 0, [81, 85, 74, 68]⟩]
    (by decide) (by decide) (by decide)).2
    "QUJDQUJD".toList 0 (some "Published") none
    [⟨7, "+1", 0, 2, 0, 0, [81, 85, 74, 68]⟩,
     ⟨7, "+1", 1, 2, 0, 0, [81, 85, 74, 68]⟩]
    [.platform "QUJDQUJD".toList "+1" (some "1") (some "2")]
    (by decide) (by decide) (by decide)
  refine ⟨?_, h.2⟩
  rw [h.1]
  decide

/-- C9: for a bridge-classified, field-valid submission, an http origin with
the restriction flag enabled yields the restriction error with no publisher
invocation and no state change; any non-http origin invokes the bridge
publisher exactly once, with the base64 rendering of the decoded content
minus its leading marker byte (which is 0) and the sender identifier, the
outcome being the publisher's. -/
theorem C9_bridge_http_policy (fuel : Nat) (co : Collaborators) (p : Payload)
    (enc : List Char) (st : CacheState)
    (htext : p.text = some enc)
    (hval : validate_payload_fields p = none)
    (hbridge : detect_payload_type enc = "bridge") :
    (decode_and_publish (fuel + 1) true co (.obj p) (some "http") st
      = (.result none (some "Bridge payloads over HTTP are restricted."),
         st, [])) ∧
    (∀ origin : Option String, origin ≠ some "http" →
      ∃ decoded : Bytes, b64Decode? enc = some decoded ∧ decoded ≠ [] ∧
        decoded.head? = some 0 ∧
        decode_and_publish (fuel + 1) true co (.obj p) origin st
          = (bridgePublishOutcome (co.publish_bridge_content
                (b64Encode (decoded.drop 1)) ((senderField p).getD "")
                p.image_length),
             st,
             [PubCall.bridge (b64Encode (decoded.drop 1))
                ((senderField p).getD "") p.image_length])) := by
  have hnotit : is_it_payload enc = false := by
    cases hit : is_it_payload enc
    · rfl
    · unfold detect_payload_type at hbridge
      rw [if_pos hit] at hbridge
      exact absurd hbridge (by decide)
  have hisb : is_bridge_payload enc = true := by
    cases hb : is_bridge_payload enc
    · unfold detect_payload_type at hbridge
      rw [if_neg (by simp [hnotit]), if_neg (by simp [hb])] at hbridge
      exact absurd hbridge (by decide)
    · rfl
  have hdet : ∀ q, detect_payload_type enc = q ↔ ("bridge" : String) = q := by
    intro q
    rw [hbridge]
  obtain ⟨b, rest, hdec, hb0⟩ : ∃ b rest, b64Decode? enc = some (b :: rest) ∧ b = 0 := by
    unfold is_bridge_payload at hisb
    cases hdec : b64Decode? enc <;> rw [hdec] at hisb
    · exact absurd hisb (by decide)
    · rename_i ds
      cases ds with
      | nil => exact absurd hisb (by decide)
      | cons b rest =>
        refine ⟨b, rest, rfl, ?_⟩
        simpa [BRIDGE_REQUEST_IDENTIFIER] using hisb
  subst hb0
  constructor
  · simp only [decode_and_publish, hval, htext, Option.getD_some, hbridge,
      hdec]
    rw [if_neg (by decide), if_neg (by simp), if_pos (by simp)]
  · intro origin horigin
    refine ⟨0 :: rest, hdec, by simp, rfl, ?_⟩
    simp only [decode_and_publish, hval, htext, Option.getD_some, hbridge,
      hdec]
    rw [if_neg (by decide), if_neg (by simp),
      if_neg (by
        intro hcontra
        exact horigin hcontra.2.1),
      if_pos (by decide)]
    cases hres : co.publish_bridge_content (b64Encode ((0 :: rest).drop 1))
        ((senderField p).getD "") p.image_length with
    | grpcError d => simp [bridgePublishOutcome, hres]
    | response r =>
      cases hs : r.success <;> simp [bridgePublishOutcome, hres, hs]

/-- Witness for C9: a concrete bridge payload (base64 of bytes 0,104,105)
from a validated submission, restricted over http and published over smtp
with the marker byte stripped. -/
theorem C9_bridge_http_policy_witness :
    decode_and_publish 1 true okCollaborators
        (.obj { text := some "AGhp".toList, msisdn := some "+11",
                date := some 5, date_sent := some 6 }) (some "http") []
      = (.result none (some "Bridge payloads over HTTP are restricted."),
         [], []) ∧
    decode_and_publish 1 true okCollaborators
        (.obj { text := some "AGhp".toList, msisdn := some "+11",
                date := some 5, date_sent := some 6 }) (some "smtp") []
      = (.result (some "Bridge published") none, [],
         [PubCall.bridge "aGk=".toList "+11" none]) := by
  have h := C9_bridge_http_policy 0 okCollaborators
    { text := some "AGhp".toList, msisdn := some "+11", date := some 5,
      date_sent := some 6 } "AGhp".toList [] rfl (by decide) (by decide)
  refine ⟨h.1, ?_⟩
  obtain ⟨decoded, hdec, hne, hhead, heq⟩ := h.2 (some "smtp") (by decide)
  have hdl : decoded = [0, 104, 105] := by
    have hsome : some decoded = some [0, 104, 105] := by
      rw [← hdec]
      decide
    simpa using hsome
  subst hdl
  rw [heq]
  decide

end RelaySMS
